import Mathlib

/-!
Shallow embedding of the secure query-building subsystem of the inventory
application (files security.py and operations.py).  Python dicts are encoded
as ordered association lists, dynamically typed values as the inductive type
Value, raised exceptions and early error returns as Except, and the database
driver as an oracle parameter where a function touches the connection.
psycopg2 rendering is modelled faithfully: sql.Identifier(x).as_string gives
x surrounded by double quotes (inner double quotes doubled), and
sql.Placeholder().as_string gives the two characters percent-s.
-/

/-- A dynamically typed Python value as used by the query subsystem:
strings, integers, and lists of values. -/
inductive Value where
  | vStr (s : String)
  | vInt (n : Int)
  | vList (elems : List Value)

/-- The single-quote character (code 39), named to keep character literals
simple. -/
def squote : Char := Char.ofNat 39

/-- Character filter used by QueryBuilder.sanitize_value (security.py line
153): the regular expression character class removes semicolon, single
quote, double quote and backslash. -/
def stripDangerous : List Char → List Char
  | [] => []
  | ch :: rest =>
    if ch == (';') || ch == squote || ch == ('"') || ch == ('\\') then
      stripDangerous rest
    else
      ch :: stripDangerous rest

/-- QueryBuilder.sanitize_value (security.py lines 149-155): strings lose
the four dangerous characters, every other value passes through unchanged. -/
def sanitize_value : Value → Value
  | .vStr s => .vStr (String.mk (stripDangerous s.data))
  | v => v

/-- QueryBuilder.VALID_IDENTIFIERS (security.py lines 10-20): the static
whitelist mapping each table name to its legal column names. -/
def VALID_IDENTIFIERS : List (String × List String) :=
  [ (("categories"),
      [("category_id"), ("category_name"), ("description"), ("created_at")]),
    (("suppliers"),
      [("supplier_id"), ("supplier_name"), ("contact_person"), ("email"),
       ("phone"), ("address"), ("created_at")]),
    (("products"),
      [("product_id"), ("product_name"), ("category_id"), ("supplier_id"),
       ("price"), ("cost"), ("quantity"), ("sku"), ("description"),
       ("created_at"), ("updated_at")]),
    (("inventory_transactions"),
      [("transaction_id"), ("product_id"), ("transaction_type"),
       ("quantity_change"), ("previous_quantity"), ("new_quantity"),
       ("reference"), ("notes"), ("created_at"), ("created_by")]) ]

/-- QueryBuilder.validate_identifier (security.py lines 22-29).  The column
argument defaults to None in the source; callers that omit it are modelled
by passing none.  The Python test uses truthiness: a None or empty-string
column skips the membership check entirely. -/
def validate_identifier (table : String) (column : Option String) : Bool :=
  match VALID_IDENTIFIERS.lookup table with
  | none => false
  | some cols =>
    match column with
    | none => true
    | some c => if c != ("") && !(cols.contains c) then false else true

/-- Rendering of sql.Identifier: the name in double quotes, inner double
quotes doubled (psycopg2 quote_ident). -/
def quoteChars : List Char → List Char
  | [] => []
  | ch :: rest =>
    if ch == ('"') then ('"') :: ('"') :: quoteChars rest
    else ch :: quoteChars rest

/-- sql.Identifier(s).as_string. -/
def quoteIdent (s : String) : String :=
  ("\"") ++ String.mk (quoteChars s.data) ++ ("\"")

/-- sql.SQL(sep).join: concatenation with a separator between elements. -/
def joinSep (sep : String) : List String → String
  | [] => ("")
  | [x] => x
  | x :: y :: xs => x ++ sep ++ joinSep sep (y :: xs)

/-- Python str.upper restricted to ASCII, as applied to operator tokens. -/
def pyUpper (s : String) : String := String.mk (s.data.map Char.toUpper)

/-- Python s[:-1]: drop the final character. -/
def pyDropLast (s : String) : String := String.mk s.data.dropLast

/-- Python s.endswith(t). -/
def pyEndsWith (s t : String) : Bool := t.data.isSuffixOf s.data

/-- A filter condition triple (column, operator, value) as passed to the
builders. -/
abbrev FilterCond := String × String × Value

/-- Python len(val) as applied to the IN value in the builders: lists and
strings have a length, an integer raises TypeError (modelled as none). -/
def inLen : Value → Option Nat
  | .vList vs => some vs.length
  | .vStr s => some s.data.length
  | .vInt _ => none

/-- Rendering of one WHERE condition after identifier validation
(security.py lines 45-61): IN produces one placeholder per element of the
value list, any other operator token is spliced directly between the quoted
column and a single placeholder. -/
def renderCondition (col : String) (op : String) (val : Value) : Except String String :=
  if pyUpper op == ("IN") then
    match inLen val with
    | some n =>
      .ok (quoteIdent col ++ (" IN (") ++ joinSep (", ") (List.replicate n ("%s")) ++ (")"))
    | none => .error ("TypeError: object of type int has no len")
  else
    .ok (quoteIdent col ++ (" ") ++ op ++ (" ") ++ ("%s"))

/-- The condition loop of build_select_query and of the WHERE part of
build_update_query: validate each column, then render the condition. -/
def renderConds (table : String) : List FilterCond → Except String (List String)
  | [] => .ok []
  | (col, op, val) :: rest =>
    if validate_identifier table (some col) then
      match renderCondition col op val with
      | .error e => .error e
      | .ok c =>
        match renderConds table rest with
        | .error e => .error e
        | .ok cs => .ok (c :: cs)
    else .error (("Invalid column name: ") ++ col)

/-- QueryBuilder.build_select_query (security.py lines 31-68).  A None or
empty filter list is falsy in Python, giving the bare SELECT. -/
def build_select_query (table : String) (filters : Option (List FilterCond)) : Except String String :=
  if validate_identifier table none then
    let base := ("SELECT * FROM ") ++ quoteIdent table
    match filters with
    | none => .ok base
    | some fs =>
      if fs.isEmpty then .ok base
      else
        match renderConds table fs with
        | .error e => .error e
        | .ok cs => .ok (base ++ (" WHERE ") ++ joinSep (" AND ") cs)
  else .error (("Invalid table name: ") ++ table)

/-- The SET-clause loop of build_update_query (security.py lines 77-88). -/
def renderSetParts (table : String) : List (String × Value) → Except String (List String)
  | [] => .ok []
  | (col, _) :: rest =>
    if validate_identifier table (some col) then
      match renderSetParts table rest with
      | .error e => .error e
      | .ok ps => .ok ((quoteIdent col ++ (" = ") ++ ("%s")) :: ps)
    else .error (("Invalid column name: ") ++ col)

/-- QueryBuilder.build_update_query (security.py lines 70-118). -/
def build_update_query (table : String) (set_clauses : List (String × Value))
    (where_clauses : List FilterCond) : Except String String :=
  if validate_identifier table none then
    match renderSetParts table set_clauses with
    | .error e => .error e
    | .ok sps =>
      match renderConds table where_clauses with
      | .error e => .error e
      | .ok wps =>
        .ok (("UPDATE ") ++ quoteIdent table ++ (" SET ") ++ joinSep (", ") sps
             ++ (" WHERE ") ++ joinSep (" AND ") wps)
  else .error (("Invalid table name: ") ++ table)

/-- The column validation loop shared by build_insert_query
(security.py lines 126-128). -/
def checkCols (table : String) : List String → Except String Unit
  | [] => .ok ()
  | c :: rest =>
    if validate_identifier table (some c) then checkCols table rest
    else .error (("Invalid column name: ") ++ c)

/-- QueryBuilder.build_insert_query (security.py lines 120-147). -/
def build_insert_query (table : String) (columns : List String)
    (values_list : List (List Value)) : Except String String :=
  if validate_identifier table none then
    match checkCols table columns with
    | .error e => .error e
    | .ok _ =>
      let colsSql := joinSep (", ") (columns.map quoteIdent)
      let rows := values_list.map
        (fun vs => ("(") ++ joinSep (", ") (List.replicate vs.length ("%s")) ++ (")"))
      .ok (("INSERT INTO ") ++ quoteIdent table ++ (" (") ++ colsSql
           ++ (") VALUES ") ++ joinSep (", ") rows ++ (" RETURNING *"))
  else .error (("Invalid table name: ") ++ table)

/-- Elements contributed to the parameter tuple by the IN branch of the
parameter loop of InventoryOperations.filter_multiple_values
(operations.py lines 68-76): iterating a Python value yields the list
elements for a list, the one-character strings for a string, and raises
TypeError for an integer. -/
def paramContrib : FilterCond → Except String (List Value)
  | (_, op, val) =>
    if pyUpper op == ("IN") then
      match val with
      | .vList vs => .ok (vs.map sanitize_value)
      | .vStr s => .ok (s.data.map (fun ch => sanitize_value (.vStr (String.mk [ch]))))
      | .vInt _ => .error ("TypeError: int is not iterable")
    else .ok [sanitize_value val]

/-- The full parameter loop of filter_multiple_values: left-to-right over
the filter list, each condition contributing its sanitized values. -/
def filterParams : List FilterCond → Except String (List Value)
  | [] => .ok []
  | f :: rest =>
    match paramContrib f, filterParams rest with
    | .ok xs, .ok ys => .ok (xs ++ ys)
    | .error e, _ => .error e
    | _, .error e => .error e

/-- The column validation loops of operations.py, which report errors with
an operations-level message. -/
def opCheckCols (table : String) : List String → Except String Unit
  | [] => .ok ()
  | c :: rest =>
    if validate_identifier table (some c) then opCheckCols table rest
    else .error (("Error: Invalid column ") ++ c ++ (" for table ") ++ table)

/-- InventoryOperations.update_single_record (operations.py lines 89-128):
refuse updates naming an id column, validate the remaining columns, build
the UPDATE via build_update_query with the conventional primary-key WHERE
clause, and pair the statement with the sanitized parameters (SET values
first, then the record id). -/
def update_single_record (table : String) (record_id : Value)
    (updates : List (String × Value)) : Except String (String × List Value) :=
  let keys := updates.map Prod.fst
  if keys.contains ("id") || keys.contains (pyDropLast table ++ ("_id")) then
    .error ("Error: Cannot update ID columns")
  else
    match opCheckCols table keys with
    | .error e => .error e
    | .ok _ =>
      let id_column :=
        if pyEndsWith table ("s") then pyDropLast table ++ ("_id")
        else table ++ ("_id")
      match build_update_query table updates [(id_column, ("="), record_id)] with
      | .error e => .error e
      | .ok q =>
        .ok (q, updates.map (fun p => sanitize_value p.2) ++ [sanitize_value record_id])

/-- Python set(a) == set(b) on key lists: mutual containment. -/
def sameKeySet (a b : List String) : Bool :=
  a.all (fun k => b.contains k) && b.all (fun k => a.contains k)

/-- InventoryOperations.insert_multiple_records (operations.py lines
224-265): reject an empty batch, reject rows whose key set differs from the
first row, validate columns, then build the multi-row INSERT and the
flattened sanitized parameter list. -/
def insert_multiple_records (table : String)
    (records : List (List (String × Value))) : Except String (String × List Value) :=
  match records with
  | [] => .error ("No records to insert")
  | r0 :: _ =>
    let columns := r0.map Prod.fst
    if records.any (fun r => !(sameKeySet (r.map Prod.fst) columns)) then
      .error ("Error: All records must have the same columns")
    else
      match opCheckCols table columns with
      | .error e => .error e
      | .ok _ =>
        let values_list := records.map (fun r => r.map Prod.snd)
        match build_insert_query table columns values_list with
        | .error e => .error e
        | .ok q =>
          .ok (q, (values_list.map (fun vs => vs.map sanitize_value)).flatten)

/-- A row returned by the executor for a RETURNING clause: an ordered
mapping from column names to values. -/
abbrev Row := List (String × Value)

/-- The foreign-key naming test of insert_related_records (operations.py
lines 199-205): a column participates when it ends in the id suffix and
equals the previous table name minus its final character plus the suffix. -/
def fkMatch (prev : String) (col : String) : Bool :=
  pyEndsWith col ("_id") && col == (pyDropLast prev ++ ("_id"))

/-- The in-place foreign-key fill of insert_related_records: every matching
column of the data dict receives the most recently captured identifier;
reading that identifier from an empty capture list raises IndexError
(modelled as none). -/
def fkFill (prev : String) (acc : List Value) (data : Row) : Option Row :=
  if data.any (fun p => fkMatch prev p.1) then
    match acc.getLast? with
    | some last => some (data.map (fun p => if fkMatch prev p.1 then (p.1, last) else p))
    | none => none
  else some data

/-- The fallback identifier capture of insert_related_records when no id
column was requested: the first key of the returned row ending in the id
suffix, if any. -/
def firstId (row : Row) : List Value :=
  match row.find? (fun p => pyEndsWith p.1 ("_id")) with
  | some p => [p.2]
  | none => []

/-- The loop of InventoryOperations.insert_related_records (operations.py
lines 191-222).  The argument ex is the oracle for
self.insert_single_record at each position: some row on success (the
RETURNING row), none on any failure (that method catches its own
exceptions and returns None).  A failed insert appends nothing and the loop
continues with the next position; a KeyError on the requested id column or
an IndexError in the foreign-key fill aborts the whole helper (none). -/
def insertRelatedGo (ex : Nat → String → Row → Option Row) :
    Nat → String → List Value → List (String × Row × String) → Option (List Value)
  | _, _, acc, [] => some acc
  | i, prev, acc, (t, data, idCol) :: rest =>
    match (if 0 < i && idCol != ("") then fkFill prev acc data else some data) with
    | none => none
    | some data2 =>
      match ex i t data2 with
      | none => insertRelatedGo ex (i + 1) t acc rest
      | some row =>
        if row.isEmpty then insertRelatedGo ex (i + 1) t acc rest
        else if idCol != ("") then
          match row.lookup idCol with
          | none => none
          | some v => insertRelatedGo ex (i + 1) t (acc ++ [v]) rest
        else insertRelatedGo ex (i + 1) t (acc ++ firstId row) rest

/-- InventoryOperations.insert_related_records: run the loop from position
zero with no captured identifiers. -/
def insert_related_records (ex : Nat → String → Row → Option Row)
    (tables_data : List (String × Row × String)) : Option (List Value) :=
  insertRelatedGo ex 0 ("") [] tables_data

/-- Number of percent-s placeholder occurrences in a character sequence,
scanning left to right. -/
def countPS : List Char → Nat
  | [] => 0
  | [_] => 0
  | a :: b :: rest =>
    if a == ('%') && b == ('s') then countPS rest + 1
    else countPS (b :: rest)

/-- The string O(quote)Brien;DROP used by the sanitizer example. -/
def obrienStr : String :=
  String.mk [('O'), squote, ('B'), ('r'), ('i'), ('e'), ('n'), (';'), ('D'), ('R'), ('O'), ('P')]

/-! ## Helper lemmas -/

/-- The sanitizer character loop is pointwise filtering. -/
theorem stripDangerous_eq_filter (l : List Char) :
    stripDangerous l =
      l.filter (fun ch => decide (¬(ch = (';') ∨ ch = squote ∨ ch = ('"') ∨ ch = ('\\')))) := by
  induction l with
  | nil => rfl
  | cons ch rest ih =>
    by_cases h : ch = (';') ∨ ch = squote ∨ ch = ('"') ∨ ch = ('\\')
    · have hb : (ch == (';') || ch == squote || ch == ('"') || ch == ('\\')) = true := by
        rcases h with h | h | h | h <;> simp [h]
      simp only [stripDangerous, hb, List.filter_cons, decide_not, ih,
        Bool.and_eq_true, Bool.not_eq_true', decide_eq_false_iff_not, decide_eq_true_eq]
      simp [h]
    · have hb : (ch == (';') || ch == squote || ch == ('"') || ch == ('\\')) = false := by
        push_neg at h
        obtain ⟨h1, h2, h3, h4⟩ := h
        simp [h1, h2, h3, h4]
      simp only [stripDangerous, hb, List.filter_cons, decide_not, ih,
        Bool.and_eq_true, Bool.not_eq_true', decide_eq_false_iff_not, decide_eq_true_eq]
      simp [h]

/-- Mapping the sanitizer over values it fixes is the identity. -/
theorem map_sanitize_fix (vs : List Value) (h : ∀ v ∈ vs, sanitize_value v = v) :
    vs.map sanitize_value = vs := by
  induction vs with
  | nil => rfl
  | cons v t ih =>
    simp [h v (by simp), ih (fun x hx => h x (by simp [hx]))]

theorem countPS_cons_ne (a : Char) (l : List Char) (h : (a == ('%')) = false) :
    countPS (a :: l) = countPS l := by
  cases l with
  | nil => simp [countPS]
  | cons b rest => simp [countPS, h]

theorem countPS_append_no_pct (l₁ l₂ : List Char)
    (h : ∀ a ∈ l₁, (a == ('%')) = false) :
    countPS (l₁ ++ l₂) = countPS l₂ := by
  induction l₁ with
  | nil => simp
  | cons a t ih =>
    rw [List.cons_append, countPS_cons_ne _ _ (h a (by simp))]
    exact ih (fun x hx => h x (by simp [hx]))

/-- The joined placeholder block for n values scans to exactly n
placeholder occurrences, whatever follows it. -/
theorem countPS_placeholders (n : Nat) (tail : List Char) :
    countPS ((joinSep (", ") (List.replicate n ("%s"))).data ++ tail) = n + countPS tail := by
  induction n generalizing tail with
  | zero => simp [joinSep]
  | succ m ih =>
    cases m with
    | zero =>
      have h1 : (("%s" : String)).data = [('%'), ('s')] := rfl
      simp [joinSep, h1, countPS]
      omega
    | succ k =>
      have hrep : List.replicate (k + 2) (("%s" : String)) =
          ("%s") :: ("%s") :: List.replicate k ("%s") := by
        simp [List.replicate_succ]
      have hjoin : joinSep (", ") (("%s") :: ("%s") :: List.replicate k ("%s")) =
          ("%s") ++ (", ") ++ joinSep (", ") (("%s") :: List.replicate k ("%s")) := rfl
      rw [hrep, hjoin, String.data_append, String.data_append]
      have h1 : (("%s" : String)).data = [('%'), ('s')] := rfl
      have h2 : ((", " : String)).data = [(','), (' ')] := rfl
      rw [h1, h2]
      have hstep : ∀ rest : List Char,
          countPS ([('%'), ('s')] ++ [(','), (' ')] ++ rest) = countPS rest + 1 := by
        intro rest
        have hps : countPS (('%') :: ('s') :: ((',') :: (' ') :: rest)) =
            countPS ((',') :: (' ') :: rest) + 1 := by
          simp [countPS]
        simpa [countPS_cons_ne (',') _ (by decide), countPS_cons_ne (' ') _ (by decide)]
          using hps
      rw [List.append_assoc, List.append_assoc]
      rw [show ([('%'), ('s')] ++ ([(','), (' ')] ++
            ((joinSep (", ") (("%s") :: List.replicate k ("%s"))).data ++ tail))) =
          ([('%'), ('s')] ++ [(','), (' ')] ++
            ((joinSep (", ") (("%s") :: List.replicate k ("%s"))).data ++ tail)) by
        simp [List.append_assoc]]
      rw [hstep]
      have := ih tail
      rw [List.replicate_succ] at this
      rw [this]
      omega

/-- The parameter loop processes a concatenation of filter lists as the
concatenation of their parameter contributions. -/
theorem filterParams_append (b : List FilterCond) (ys : List Value)
    (a : List FilterCond) (xs : List Value)
    (ha : filterParams a = .ok xs) (hb : filterParams b = .ok ys) :
    filterParams (a ++ b) = .ok (xs ++ ys) := by
  induction a generalizing xs with
  | nil =>
    simp only [filterParams] at ha
    cases ha
    simpa using hb
  | cons f t ih =>
    cases hc : paramContrib f with
    | error e => simp [filterParams, hc] at ha
    | ok xs1 =>
      cases hr : filterParams t with
      | error e => simp [filterParams, hc, hr] at ha
      | ok ys1 =>
        simp only [filterParams, hc, hr] at ha
        cases ha
        rw [List.cons_append]
        simp [filterParams, hc, ih ys1 hr, List.append_assoc]

/-- The condition loop processes a concatenation of filter lists as the
concatenation of their rendered conditions. -/
theorem renderConds_append (tb : String) (b : List FilterCond) (ys : List String)
    (a : List FilterCond) (xs : List String)
    (ha : renderConds tb a = .ok xs) (hb : renderConds tb b = .ok ys) :
    renderConds tb (a ++ b) = .ok (xs ++ ys) := by
  induction a generalizing xs with
  | nil =>
    simp only [renderConds] at ha
    cases ha
    simpa using hb
  | cons f t ih =>
    obtain ⟨col, op, val⟩ := f
    by_cases hv : validate_identifier tb (some col) = true
    · cases hrc : renderCondition col op val with
      | error e => simp [renderConds, hv, hrc] at ha
      | ok c =>
        cases hr : renderConds tb t with
        | error e => simp [renderConds, hv, hrc, hr] at ha
        | ok cs =>
          simp only [renderConds, hv, hrc, hr, if_true] at ha
          cases ha
          rw [List.cons_append]
          simp [renderConds, hv, hrc, ih cs hr]
    · simp [renderConds, hv] at ha

/-! ## Claim theorems -/

/-- Claim C3 (confirmed): sanitize_value removes every occurrence of
semicolon, single quote, double quote and backslash from a string value,
returns non-string values unchanged, maps the OBrien example to OBrienDROP,
and maps the integer 42 to itself. -/
theorem sanitize_value_removes_dangerous_chars :
    (∀ s : String, sanitize_value (.vStr s) =
        .vStr (String.mk (s.data.filter
          (fun ch => decide (¬(ch = (';') ∨ ch = squote ∨ ch = ('"') ∨ ch = ('\\'))))))) ∧
    (∀ n : Int, sanitize_value (.vInt n) = .vInt n) ∧
    (∀ vs : List Value, sanitize_value (.vList vs) = .vList vs) ∧
    sanitize_value (.vStr obrienStr) = .vStr ("OBrienDROP") ∧
    sanitize_value (.vInt 42) = .vInt 42 := by
  refine ⟨fun s => ?_, fun n => rfl, fun vs => rfl, ?_, rfl⟩
  · simp [sanitize_value, stripDangerous_eq_filter]
  · rfl

/-- Claim C2 (counterexample): the empty string is not a registered column
of table products, yet validate_identifier accepts the pair. -/
theorem validate_identifier_empty_column_cex :
    validate_identifier ("products") (some ("")) = true ∧
    ((VALID_IDENTIFIERS.lookup ("products")).getD []).contains ("") = false := by
  constructor <;> rfl

/-- Claim C2 (amended): validate_identifier table (some c) is true exactly
when the table is registered and c is either empty or among the registered
columns of the table; with no column argument it is true exactly when the
table is registered.  The function is total, so it is side-effect free and
raises nothing. -/
theorem validate_identifier_characterization (t : String) (c : String) :
    (validate_identifier t (some c) = true ↔
      ((VALID_IDENTIFIERS.lookup t).isSome ∧
        (c = ("") ∨ ((VALID_IDENTIFIERS.lookup t).getD []).contains c = true))) ∧
    (validate_identifier t none = true ↔ (VALID_IDENTIFIERS.lookup t).isSome = true) := by
  cases hl : VALID_IDENTIFIERS.lookup t with
  | none => simp [validate_identifier, hl]
  | some cols =>
    constructor
    · simp only [validate_identifier, hl, Option.getD_some, Option.isSome_some, true_and]
      by_cases hc : c = ("")
      · subst hc
        simp
      · have hb : (c != ("")) = true := by simp [bne_iff_ne, hc]
        cases hcont : cols.contains c <;> simp [hb, hcont, hc]
    · simp [validate_identifier, hl]

/-- Claim C10 (confirmed): for a registered table, a None or empty-string
column argument makes validate_identifier skip the membership check and
return true. -/
theorem validate_identifier_skips_falsy_column (t : String)
    (h : (VALID_IDENTIFIERS.lookup t).isSome = true) :
    validate_identifier t none = true ∧ validate_identifier t (some ("")) = true := by
  cases hl : VALID_IDENTIFIERS.lookup t with
  | none => rw [hl] at h; cases h
  | some cols =>
    have hb : (("" : String) != ("")) = false := by decide
    constructor <;> simp [validate_identifier, hl, hb]

/-- Witness for the C10 theorem at the registered table products. -/
theorem validate_identifier_skips_falsy_column_witness :
    (VALID_IDENTIFIERS.lookup ("products")).isSome = true ∧
    (validate_identifier ("products") none = true ∧
      validate_identifier ("products") (some ("")) = true) :=
  ⟨by decide, validate_identifier_skips_falsy_column ("products") (by decide)⟩

/-- Claim C1 (code bug): an operator token far outside the enumerated set
is spliced verbatim into the generated SQL of both builders, and a
statement is produced instead of an error. -/
theorem operator_token_embedded_not_rejected :
    build_select_query ("products")
        (some [(("price"), ("> 0 OR 1=1 --"), Value.vInt 5)]) =
      .ok ("SELECT * FROM \"products\" WHERE \"price\" > 0 OR 1=1 -- %s") ∧
    build_update_query ("products") [(("price"), Value.vInt 1)]
        [(("price"), ("> 0 OR 1=1 --"), Value.vInt 5)] =
      .ok ("UPDATE \"products\" SET \"price\" = %s WHERE \"price\" > 0 OR 1=1 -- %s") := by
  constructor <;> rfl

/-- Claim C4 (code bug): an IN condition with an empty value list is not
rejected; both builders emit statement text containing the syntactically
invalid fragment IN (). -/
theorem empty_in_list_generates_invalid_sql :
    build_select_query ("products")
        (some [(("category_id"), ("IN"), Value.vList [])]) =
      .ok ("SELECT * FROM \"products\" WHERE \"category_id\" IN ()") ∧
    build_update_query ("products") [(("price"), Value.vInt 1)]
        [(("category_id"), ("IN"), Value.vList [])] =
      .ok ("UPDATE \"products\" SET \"price\" = %s WHERE \"category_id\" IN ()") := by
  constructor <;> rfl

/-- Claim C6 (counterexample): build_update_query itself accepts product_id
in the SET clause of an UPDATE on products and produces statement text,
because product_id is a whitelisted column and the builder performs no
primary-key check. -/
theorem build_update_query_pk_set_cex :
    build_update_query ("products") [(("product_id"), Value.vInt 99)]
        [(("product_id"), ("="), Value.vInt 1)] =
      .ok ("UPDATE \"products\" SET \"product_id\" = %s WHERE \"product_id\" = %s") := by
  rfl

/-- Claim C6 (amended): the rejection lives in the operations layer:
update_single_record refuses any update whose keys include the
conventional primary-key column (table name minus its final character plus
the id suffix) before any statement is built. -/
theorem update_single_record_rejects_id_columns (table : String) (rid : Value)
    (updates : List (String × Value))
    (h : (updates.map Prod.fst).contains (pyDropLast table ++ ("_id")) = true) :
    update_single_record table rid updates =
      .error ("Error: Cannot update ID columns") := by
  simp only [update_single_record, h, Bool.or_true]
  rfl

/-- Witness for the C6 amended theorem: updating products with a SET on
product_id is refused. -/
theorem update_single_record_rejects_id_columns_witness :
    (([(("product_id"), Value.vInt 99)] : List (String × Value)).map Prod.fst).contains
        (pyDropLast ("products") ++ ("_id")) = true ∧
    update_single_record ("products") (Value.vInt 1) [(("product_id"), Value.vInt 99)] =
      .error ("Error: Cannot update ID columns") :=
  ⟨by decide,
   update_single_record_rejects_id_columns ("products") (Value.vInt 1) _ (by decide)⟩

/-- Claim C7 (confirmed): a multi-row insert whose rows do not all share
the key set of the first row is rejected before any statement or parameter
list is produced. -/
theorem insert_multiple_records_rejects_mismatch (table : String)
    (r0 : List (String × Value)) (rs : List (List (String × Value)))
    (h : ((r0 :: rs).any
        (fun r => !(sameKeySet (r.map Prod.fst) (r0.map Prod.fst)))) = true) :
    insert_multiple_records table (r0 :: rs) =
      .error ("Error: All records must have the same columns") := by
  unfold insert_multiple_records
  simp [h]

/-- Witness for the C7 theorem: a second row with a different key set is
rejected. -/
theorem insert_multiple_records_rejects_mismatch_witness :
    (([(("product_name"), Value.vStr ("a"))] ::
        [[(("price"), Value.vInt 3)]]).any
        (fun r => !(sameKeySet (r.map Prod.fst)
          (([(("product_name"), Value.vStr ("a"))] : List (String × Value)).map Prod.fst)))) = true ∧
    insert_multiple_records ("products")
        [[(("product_name"), Value.vStr ("a"))], [(("price"), Value.vInt 3)]] =
      .error ("Error: All records must have the same columns") :=
  ⟨by decide,
   insert_multiple_records_rejects_mismatch ("products") _ _ (by decide)⟩

/-- Claim C8 (counterexample): the round-trip SELECT against products
produces psycopg2 rendering with quoted identifiers and percent-s
placeholders, which differs from the claimed literal text. -/
theorem select_roundtrip_text_cex :
    build_select_query ("products")
        (some [(("price"), (">"), Value.vInt 10),
               (("category_id"), ("IN"),
                 Value.vList [Value.vInt 1, Value.vInt 2, Value.vInt 3])]) =
      .ok ("SELECT * FROM \"products\" WHERE \"price\" > %s AND \"category_id\" IN (%s, %s, %s)") ∧
    ("SELECT * FROM \"products\" WHERE \"price\" > %s AND \"category_id\" IN (%s, %s, %s)" : String) ≠
      ("SELECT * FROM products WHERE price > ? AND category_id IN (?, ?, ?)") := by
  constructor
  · rfl
  · decide

/-- Claim C8 (amended): the round-trip SELECT yields the psycopg2-rendered
text together with the parameter list 10, 1, 2, 3 in that order. -/
theorem select_roundtrip_amended :
    build_select_query ("products")
        (some [(("price"), (">"), Value.vInt 10),
               (("category_id"), ("IN"),
                 Value.vList [Value.vInt 1, Value.vInt 2, Value.vInt 3])]) =
      .ok ("SELECT * FROM \"products\" WHERE \"price\" > %s AND \"category_id\" IN (%s, %s, %s)") ∧
    filterParams [(("price"), (">"), Value.vInt 10),
                  (("category_id"), ("IN"),
                    Value.vList [Value.vInt 1, Value.vInt 2, Value.vInt 3])] =
      .ok [Value.vInt 10, Value.vInt 1, Value.vInt 2, Value.vInt 3] := by
  constructor <;> rfl

/-- Claim C5 (confirmed): an IN condition over N values renders with
exactly N placeholder occurrences, appears in the rendered condition list
in position, and contributes its N values contiguously and in order to the
parameter list, between the parameters of the preceding and following
conditions. -/
theorem in_condition_placeholder_and_param_order
    (t c : String) (pre post : List FilterCond) (vs ps qs : List Value)
    (rs ws : List String)
    (_hlen : 1 ≤ vs.length)
    (hv : validate_identifier t (some c) = true)
    (hq : ∀ a ∈ (quoteIdent c).data, (a == ('%')) = false)
    (hclean : ∀ v ∈ vs, sanitize_value v = v)
    (hpre : filterParams pre = .ok ps) (hpost : filterParams post = .ok qs)
    (hrpre : renderConds t pre = .ok rs) (hrpost : renderConds t post = .ok ws) :
    renderConds t (pre ++ ((c, ("IN"), Value.vList vs)) :: post) =
      .ok (rs ++ (quoteIdent c ++ (" IN (") ++
        joinSep (", ") (List.replicate vs.length ("%s")) ++ (")")) :: ws) ∧
    countPS (quoteIdent c ++ (" IN (") ++
        joinSep (", ") (List.replicate vs.length ("%s")) ++ (")")).data = vs.length ∧
    filterParams (pre ++ ((c, ("IN"), Value.vList vs)) :: post) =
      .ok (ps ++ vs ++ qs) := by
  have hIN : (pyUpper ("IN") == ("IN")) = true := by decide
  refine ⟨?_, ?_, ?_⟩
  · have hmid : renderConds t (((c, ("IN"), Value.vList vs)) :: post) =
        .ok ((quoteIdent c ++ (" IN (") ++
          joinSep (", ") (List.replicate vs.length ("%s")) ++ (")")) :: ws) := by
      simp [renderConds, hv, renderCondition, hIN, inLen, hrpost]
    exact renderConds_append t _ _ pre rs hrpre hmid
  · have e1 : (quoteIdent c ++ (" IN (") ++
        joinSep (", ") (List.replicate vs.length ("%s")) ++ (")")).data =
        ((quoteIdent c).data ++ ((" IN (" : String)).data) ++
          ((joinSep (", ") (List.replicate vs.length ("%s"))).data ++
            (((")") : String)).data) := by
      simp [String.data_append]
    rw [e1, countPS_append_no_pct]
    · rw [countPS_placeholders]
      have : countPS (((")") : String)).data = 0 := rfl
      rw [this]
      omega
    · intro a ha
      rcases List.mem_append.mp ha with h1 | h2
      · exact hq a h1
      · have hin : ((" IN (" : String)).data =
            [(' '), ('I'), ('N'), (' '), ('(')] := rfl
        rw [hin] at h2
        fin_cases h2 <;> decide
  · have hmid : filterParams (((c, ("IN"), Value.vList vs)) :: post) =
        .ok (vs ++ qs) := by
      simp [filterParams, paramContrib, hIN, hpost, map_sanitize_fix vs hclean]
    have := filterParams_append _ _ pre ps hpre hmid
    simpa [List.append_assoc] using this

/-- Witness for the C5 theorem: table products, one preceding comparison
condition, an IN condition over three values, no following condition. -/
theorem in_condition_placeholder_and_param_order_witness :
    validate_identifier ("products") (some ("category_id")) = true ∧
    (renderConds ("products")
        [(("price"), (">"), Value.vInt 10),
         (("category_id"), ("IN"),
           Value.vList [Value.vInt 1, Value.vInt 2, Value.vInt 3])] =
      .ok [("\"price\" > %s"), ("\"category_id\" IN (%s, %s, %s)")] ∧
    countPS (("\"category_id\" IN (%s, %s, %s)" : String)).data = 3 ∧
    filterParams
        [(("price"), (">"), Value.vInt 10),
         (("category_id"), ("IN"),
           Value.vList [Value.vInt 1, Value.vInt 2, Value.vInt 3])] =
      .ok [Value.vInt 10, Value.vInt 1, Value.vInt 2, Value.vInt 3]) :=
  ⟨by decide,
   in_condition_placeholder_and_param_order ("products") ("category_id")
     [(("price"), (">"), Value.vInt 10)] []
     [Value.vInt 1, Value.vInt 2, Value.vInt 3] [Value.vInt 10] []
     [("\"price\" > %s")] []
     (by decide) (by decide) (by decide)
     (by intro v hv; fin_cases hv <;> rfl)
     rfl rfl rfl rfl⟩

/-- Claim C9 (counterexample): with the first insert failing and the
second succeeding, the helper reports the identifier captured at the later
position, so it neither stopped at the failure nor reported only the
identifiers captured before it (which would be the empty list). -/
theorem insert_related_partial_failure_cex :
    insert_related_records
        (fun i _ _ => if i == 0 then none else some [(("supplier_id"), Value.vInt 7)])
        [(("categories"), [(("category_name"), Value.vStr ("x"))], ("category_id")),
         (("suppliers"), [(("supplier_name"), Value.vStr ("y"))], ("supplier_id"))] =
      some [Value.vInt 7] ∧
    (some [Value.vInt 7] : Option (List Value)) ≠ some [] :=
  ⟨rfl, by simp⟩

/-- Claim C9 (amended): when the insert at an earlier position fails, the
helper keeps going: it attempts the later insert and reports the
identifier captured there, and it never deletes or compensates earlier
rows (the model performs no write besides the oracle calls). -/
theorem insert_related_continues_after_failure
    (ex : Nat → String → Row → Option Row)
    (t0 t1 c0 c1 : String) (d0 d1 row : Row) (v : Value)
    (h0 : ex 0 t0 d0 = none)
    (hc1 : (c1 != ("")) = true)
    (hnofk : (d1.any (fun p => fkMatch t0 p.1)) = false)
    (h1 : ex 1 t1 d1 = some row)
    (hne : row.isEmpty = false)
    (hlook : row.lookup c1 = some v) :
    insert_related_records ex [(t0, d0, c0), (t1, d1, c1)] = some [v] := by
  unfold insert_related_records
  simp [insertRelatedGo, h0, h1, hc1, hne, hlook, fkFill, hnofk]

/-- Witness for the C9 amended theorem: first insert fails, second returns
a supplier row whose identifier is reported. -/
theorem insert_related_continues_after_failure_witness :
    insert_related_records
        (fun i _ _ => if i == 0 then none else some [(("supplier_id"), Value.vInt 8)])
        [(("categories"), [(("category_name"), Value.vStr ("x"))], ("category_id")),
         (("suppliers"), [(("supplier_name"), Value.vStr ("y"))], ("supplier_id"))] =
      some [Value.vInt 8] :=
  insert_related_continues_after_failure _ _ _ _ _ _ _ _ _
    rfl (by decide) (by decide) rfl rfl rfl
